import Mathlib

/-!
Verification of the conversational-AI backend (bot-core): resilient provider
orchestration (`core/brain.py`), the tiered memory manager
(`memory/memory_manager.py`), the HOT in-memory tier
(`memory/providers/ram_provider.py`), and the pattern-mining layer
(`learning/analyzers/pattern_detector.py`,
`learning/core/learning_engine.py`).

The Python code is shallowly embedded: pure functions become Lean functions,
stateful code becomes explicit state passing, wall-clock readings and
collaborator I/O become explicit parameters, exceptions become `Except`,
Python floats become `ℚ`, and Python dicts become insertion-ordered
association lists.
-/

namespace BotCore

/-- Python exceptions are modelled by the name/message of the exception. -/
abbrev PyErr := String

/-! ## String helpers shared by several modules

`str.lower`, the `in` substring test, `str.split()` and Jaccard similarity
appear throughout the source.  `pyLower` models Python's `str.lower`
restricted to ASCII plus the accented letters this codebase's string
literals use. -/

/-- One character of Python's `str.lower`, over ASCII letters plus the
accented uppercase letters appearing in this codebase. -/
def pyLowerChar (c : Char) : Char :=
  if 'A' ≤ c ∧ c ≤ 'Z' then Char.ofNat (c.toNat + 32)
  else if c = 'Á' then 'á' else if c = 'À' then 'à'
  else if c = 'Â' then 'â' else if c = 'Ã' then 'ã'
  else if c = 'É' then 'é' else if c = 'Ê' then 'ê'
  else if c = 'Í' then 'í' else if c = 'Ó' then 'ó'
  else if c = 'Ô' then 'ô' else if c = 'Õ' then 'õ'
  else if c = 'Ú' then 'ú' else if c = 'Ç' then 'ç'
  else c

/-- Python `s.lower()`. -/
def pyLower (s : String) : String := String.mk (s.data.map pyLowerChar)

/-- Python's substring test `needle in hay`. -/
def pySubstr (needle hay : String) : Bool :=
  (List.range (hay.data.length + 1)).any
    (fun i => needle.data.isPrefixOf (hay.data.drop i))

/-- `any(w in s for w in ws)`. -/
def pyContainsAny (ws : List String) (s : String) : Bool :=
  ws.any (fun w => pySubstr w s)

/-- Python `s.split()`: split on whitespace runs, dropping empty pieces. -/
def pySplitWs (s : String) : List String :=
  (s.split (fun c => c.isWhitespace)).filter (fun w => w ≠ "")

/-- Jaccard similarity of two word lists viewed as sets:
`len(set1 & set2) / len(set1 | set2)`. -/
def jaccard (ws1 ws2 : List String) : ℚ :=
  let i := (ws1.dedup.filter (fun w => w ∈ ws2)).length
  let u := ((ws1 ++ ws2).dedup).length
  if u = 0 then 0 else (i : ℚ) / (u : ℚ)

/-- Insertion-ordered dict assignment `d[k] = v`: replace in place when the
key exists, append otherwise. -/
def assocSet {α : Type} (d : List (String × α)) (k : String) (v : α) :
    List (String × α) :=
  if d.any (fun p => p.1 == k) then
    d.map (fun p => if p.1 == k then (k, v) else p)
  else d ++ [(k, v)]

/-- Dict lookup `d.get(k)`. -/
def assocGet {α : Type} (d : List (String × α)) (k : String) : Option α :=
  (d.find? (fun p => p.1 == k)).map (fun p => p.2)

/-! ## Conversation data

`MemoryManager.save_conversation` builds
`conversation_data = dict(user_id, message, response, timestamp, metadata)`;
the storage tiers treat it opaquely except for `data.get("user_id")`, and
readers use `x.get("timestamp", "")` and `x.get("message", "")`.  The
fields are `Option`s because dict keys may be absent. -/

structure ConvData where
  userId : Option String := none
  message : Option String := none
  response : Option String := none
  tsIso : Option String := none
deriving DecidableEq, Repr

/-! ## HOT tier: `memory/providers/ram_provider.py`

Per-user deques (`collections.deque(maxlen=max_items)`) of TTL-stamped
items, plus a key→timestamp dict swept every 10th write.  `time.time()`
readings are explicit `now : Nat` parameters (seconds). -/

namespace RAMProvider

structure Item where
  key : String
  data : ConvData
  timestamp : Nat
deriving DecidableEq, Repr

structure State where
  maxItems : Nat
  ttlSeconds : Nat
  storage : List (String × List Item)
  timestamps : List (String × Nat)
deriving DecidableEq, Repr

/-- `RAMProvider.__init__(max_items, ttl_minutes)`. -/
def init (maxItems ttlMinutes : Nat) : State :=
  { maxItems := maxItems, ttlSeconds := ttlMinutes * 60,
    storage := [], timestamps := [] }

/-- The deque for one user (empty when the user has no entry yet). -/
def bucketOf (st : State) (uid : String) : List Item :=
  (assocGet st.storage uid).getD []

/-- `deque(maxlen=m).append`: append on the right, evicting from the left
when full. -/
def dequeAppend (maxItems : Nat) (b : List Item) (it : Item) : List Item :=
  let b' := b ++ [it]
  b'.drop (b'.length - maxItems)

/-- `_cleanup_expired`: drop expired keys from the timestamp dict (the
per-user deques are not touched by the sweep). -/
def cleanupExpired (st : State) (now : Nat) : State :=
  { st with timestamps := st.timestamps.filter (fun p => now - p.2 ≤ st.ttlSeconds) }

/-- `RAMProvider.save(key, data)` at wall-clock `now`.  Returns the new
state and the reported boolean (`True` on the normal path; the source's
`except` branch returns `False` without raising). -/
def save (st : State) (key : String) (data : ConvData) (now : Nat) :
    State × Bool :=
  let uid := data.userId.getD "unknown"
  let bucket' := dequeAppend st.maxItems (bucketOf st uid)
    { key := key, data := data, timestamp := now }
  let st' : State :=
    { st with storage := assocSet st.storage uid bucket',
              timestamps := assocSet st.timestamps key now }
  let st'' := if st'.timestamps.length % 10 == 0 then cleanupExpired st' now
              else st'
  (st'', true)

/-- The items `RAMProvider.search(query)` selects: the `limit` most recent
slots of the user's deque, most-recent-first, keeping only unexpired items. -/
def searchItems (st : State) (uid : String) (limit : Nat) (now : Nat) :
    List Item :=
  match assocGet st.storage uid with
  | none => []
  | some bucket =>
      ((bucket.reverse).take limit).filter
        (fun it => now - it.timestamp ≤ st.ttlSeconds)

/-- `RAMProvider.search(query)` with `query = dict(user_id, limit)`. -/
def search (st : State) (uid : String) (limit : Nat) (now : Nat) :
    List ConvData :=
  (searchItems st uid limit now).map (fun it => it.data)

/-- A sequence of `save` calls applied in order (key, data, clock reading). -/
def applySaves (st : State) (ops : List (String × ConvData × Nat)) : State :=
  ops.foldl (fun s op => (save s op.1 op.2.1 op.2.2).1) st

end RAMProvider

/-! ## Tiered memory manager: `memory/memory_manager.py`

`save_conversation` and `get_conversation_history` coordinate the HOT /
WARM / COLD providers.  A tier is modelled by the outcome of the one call
the manager makes to it: `none` when the tier is not in `self.providers`,
`some (.error e)` when awaiting the provider raised, `some (.ok v)` when
it returned `v`.  Every `except` branch of the source only logs. -/

namespace MemoryManager

/-- Outcomes of the (at most three) tier `save` calls made by one
`save_conversation` call. -/
structure SaveOutcomes where
  hot : Option (Except PyErr Bool)
  warm : Option (Except PyErr Bool)
  cold : Option (Except PyErr Bool)

/-- `MemoryManager.save_conversation`: write to HOT and WARM when present,
setting `saved = True` whenever the awaited call returns (its boolean
result is ignored); additionally write to COLD when
`metadata.get("confidence", 0.5) > 0.8`, without touching `saved`. -/
def save_conversation (o : SaveOutcomes) (metaConfidence : Option ℚ) : Bool :=
  let saved := false
  let saved := match o.hot with
    | some (.ok _) => true
    | some (.error _) => saved
    | none => saved
  let saved := match o.warm with
    | some (.ok _) => true
    | some (.error _) => saved
    | none => saved
  let importance := metaConfidence.getD (1/2)
  -- the COLD write is attempted when important, but `saved` is not updated
  let _ := if importance > 4/5 then o.cold else none
  saved

/-- Tier `search` behaviours for one `get_conversation_history` call:
each configured tier maps the `(user_id, needed)` query (COLD also takes
the `time_range`) to its result or to a raised exception. -/
structure HistoryTiers where
  hot : Option (String → Nat → Except PyErr (List ConvData))
  warm : Option (String → Nat → Except PyErr (List ConvData))
  cold : Option (String → Nat → (String × String) → Except PyErr (List ConvData))

/-- Observation of one `get_conversation_history` run: which tiers were
queried and what each contributed (`[]` for a tier that raised). -/
structure HistoryTrace where
  hotQueried : Bool
  warmQueried : Bool
  coldQueried : Bool
  hotRes : List ConvData
  warmRes : List ConvData
  coldRes : List ConvData
deriving Repr

/-- The sort key `x.get("timestamp", "")`, as a character list so that the
lexicographic comparison matches Python's string comparison. -/
def tsKey (d : ConvData) : List Char := (d.tsIso.getD "").data

/-- `results.sort(key=..., reverse=True)` sorts by timestamp descending. -/
def tsDesc (a b : ConvData) : Prop := tsKey b ≤ tsKey a

instance : DecidableRel tsDesc :=
  fun a b => inferInstanceAs (Decidable (tsKey b ≤ tsKey a))

instance : IsTotal ConvData tsDesc := ⟨fun a b => le_total (tsKey b) (tsKey a)⟩

instance : IsTrans ConvData tsDesc := ⟨fun _ _ _ h1 h2 => le_trans h2 h1⟩

/-- One HOT/WARM block of `get_conversation_history`: when the tier is in
`self.providers` and `needed > 0`, query it (`[]` on a raised exception);
returns (queried?, contributed results). -/
def tierStep (slot : Option (String → Nat → Except PyErr (List ConvData)))
    (uid : String) (needed : Int) : Bool × List ConvData :=
  match slot with
  | some f =>
      if needed > 0 then
        (true, match f uid needed.toNat with | .ok l => l | .error _ => [])
      else (false, [])
  | none => (false, [])

/-- The COLD block of `get_conversation_history`: additionally guarded by
the truthiness of `time_range`. -/
def coldTierStep
    (slot : Option (String → Nat → (String × String) → Except PyErr (List ConvData)))
    (tr : Option (String × String)) (uid : String) (needed : Int) :
    Bool × List ConvData :=
  match slot, tr with
  | some f, some rng =>
      if needed > 0 then
        (true, match f uid needed.toNat rng with | .ok l => l | .error _ => [])
      else (false, [])
  | _, _ => (false, [])

/-- `MemoryManager.get_conversation_history(user_id, limit, time_range)`:
query HOT, then WARM while still short, then COLD while still short and a
`time_range` was given; merge, sort by timestamp descending, truncate. -/
def get_conversation_history (tiers : HistoryTiers) (uid : String)
    (limit : Nat) (time_range : Option (String × String)) :
    List ConvData × HistoryTrace :=
  let hotStep := tierStep tiers.hot uid limit
  let warmStep := tierStep tiers.warm uid ((limit : Int) - hotStep.2.length)
  let coldStep := coldTierStep tiers.cold time_range uid
    ((limit : Int) - hotStep.2.length - warmStep.2.length)
  let results := hotStep.2 ++ warmStep.2 ++ coldStep.2
  ((results.insertionSort tsDesc).take limit,
   { hotQueried := hotStep.1, warmQueried := warmStep.1,
     coldQueried := coldStep.1,
     hotRes := hotStep.2, warmRes := warmStep.2, coldRes := coldStep.2 })

end MemoryManager

/-! ## Orchestrator: `core/brain.py`

`BotBrain.think` wraps its whole body in `try/except Exception`; on any
internal failure it returns a fixed apology with `error: True` in the
metadata.  Collaborator calls (learning engine, memory, retrieval, LLM
providers) are I/O; each is modelled by the outcome of the one call the
body makes to it.  The Python dicts `context` and the returned `metadata`
are insertion-ordered association lists so that key presence and
`dict.get` defaults are faithful. -/

namespace BotBrain

/-- A value stored in the `context` dict built by `_build_context`/`think`. -/
inductive CtxVal where
  | strV (s : String)
  | histV (h : List ConvData)
  | prefsV (m : List (String × String))
  | itemsV (l : List String)
  | docsV (l : List String)
  | profileV (style expertise : String) (prefs : List (String × String))
      (satisfaction : ℚ)
  | patternsV (ps : List (String × String × ℚ))

/-- The `context` dict. -/
abbrev Ctx := List (String × CtxVal)

/-- A value of the returned `metadata` dict. -/
inductive MVal where
  | s (v : String)
  | b (v : Bool)
  | q (v : ℚ)
  | n (v : Nat)
  | fromCtx (v : CtxVal)
  | sub (m : List (String × MVal))

/-- What the fields of `learning/models/user_profile.py` that `think`
reads look like; other profile state is irrelevant to these claims. -/
structure UserProfileM where
  communication_style : String
  expertise_level : String
  preferences : List (String × String)
  satisfaction_score : ℚ
  preferred_response_length : String := "neutral"

/-- One pattern as consumed by `think` (fields `pattern_type`,
`description`, `confidence`). -/
structure PatternView where
  pattern_type : String
  description : String
  confidence : ℚ

/-- Result of the legacy `LearningSystem.apply_learning`
(`memory/learning.py`): a dict whose only possible keys are
`corrections` and `preferences` (each present only when retrieval found
items). -/
structure LearnCtx where
  corrections : Option (List String)
  preferences : Option (List String)

/-- Outcomes of the collaborator calls made by `_build_context`. -/
structure CtxOutcomes where
  has_memory : Bool
  /-- `memory_manager.get_conversation_history(user_id, limit=5)`. -/
  history : Except PyErr (List ConvData)
  /-- `memory_manager.get_user_context(user_id)`: total, it catches
  internally and returns a dict. -/
  user_context : List (String × String)
  has_learning_system : Bool
  /-- `learning_system.apply_learning(user_id)` (inner `try` catches). -/
  learning : Except PyErr LearnCtx
  has_retrieval : Bool
  /-- `retrieval_system.retrieve(message, user_id)` (inner `try` catches). -/
  retrieval : Except PyErr (List String)

/-- The memory section of `_build_context` (inside the outer `try`): an
exception from the history call aborts the whole `try` body. -/
def mem_section (o : CtxOutcomes) : Except PyErr Ctx :=
  if o.has_memory then
    match o.history with
    | .error e => .error e
    | .ok h =>
        let c : Ctx :=
          if h ≠ [] then [("conversation_history", CtxVal.histV h)] else []
        let c : Ctx :=
          if o.user_context ≠ [] then
            c ++ [("user_preferences", CtxVal.prefsV o.user_context)]
          else c
        .ok c
  else .ok []

/-- The legacy-learning section of `_build_context` (its inner `try`
catches, so a raised exception just skips the `context.update`). -/
def add_learning (o : CtxOutcomes) (c0 : Ctx) : Ctx :=
  if o.has_learning_system then
    match o.learning with
    | .ok lc =>
        if lc.corrections.isSome ∨ lc.preferences.isSome then
          let c := match lc.corrections with
            | some l => assocSet c0 "corrections" (CtxVal.itemsV l)
            | none => c0
          match lc.preferences with
          | some l => assocSet c "preferences" (CtxVal.itemsV l)
          | none => c
        else c0
    | .error _ => c0
  else c0

/-- The retrieval section of `_build_context` (inner `try` as well). -/
def add_retrieval (o : CtxOutcomes) (c1 : Ctx) : Ctx :=
  if o.has_retrieval then
    match o.retrieval with
    | .ok docs =>
        if docs ≠ [] then
          assocSet c1 "relevant_documents" (CtxVal.docsV docs)
        else c1
    | .error _ => c1
  else c1

/-- `BotBrain._build_context`: the outer `try` wraps the memory section,
so an exception there abandons the rest and the partial dict (still empty)
is returned; the learning and retrieval sections catch their own
exceptions and are skipped on failure. -/
def build_context (o : CtxOutcomes) : Ctx :=
  match mem_section o with
  | .error _ => []
  | .ok c0 => add_retrieval o (add_learning o c0)

/-- One LLM provider as `_generate_response` sees it: `is_available()`
and the outcome of `generate_response(prompt, user_id)`. -/
structure ProviderB where
  available : Bool
  gen : Except PyErr String

/-- The brain's provider slots (each `None` when initialization failed). -/
structure Providers where
  primary : Option ProviderB
  fallback : Option ProviderB

/-- Python truthiness of the `response` local in `_generate_response`
(`None` or the empty string are falsy). -/
def pyFalsyStr : Option String → Bool
  | none => true
  | some s => s == ""

/-- The fixed last-resort response of `_generate_response`. -/
def static_response : String :=
  "Desculpe, nossos serviços estão temporariamente indisponíveis. Por favor, tente novamente em alguns instantes."

/-- `BotBrain._generate_response`: try the primary provider when present
and available, then the fallback when the response is still falsy, then
the fixed static response.  Returns the response and the final
`provider_used` local (also stored in `_last_provider_used`). -/
def generate_response (ps : Providers) : String × Option String :=
  let step1 : Option String × Option String :=
    match ps.primary with
    | some p =>
        if p.available then
          match p.gen with
          | .ok t => (some t, some "primary")
          | .error _ => (none, none)
        else (none, none)
    | none => (none, none)
  let step2 : Option String × Option String :=
    if pyFalsyStr step1.1 then
      match ps.fallback with
      | some p =>
          if p.available then
            match p.gen with
            | .ok t => (some t, some "fallback")
            | .error _ => step1
          else step1
      | none => step1
    else step1
  if pyFalsyStr step2.1 then (static_response, some "static")
  else (step2.1.getD "", step2.2)

/-- `BotBrain._calculate_confidence` over `ℚ` (the float literals are
exact decimals). -/
def calculate_confidence (response : String) : ℚ :=
  let confidence : ℚ := 0.7
  let confidence : ℚ :=
    if pySubstr "dificuldades técnicas" response
        || pySubstr "temporariamente indisponíveis" response then 0.2
    else if response.length < 10 then confidence - 0.2
    else if response.length > 100 then confidence + 0.1
    else confidence
  let confidence :=
    if pyContainsAny ["você mencionou", "anteriormente", "como disse", "conforme"]
        (pyLower response) then confidence + 0.1
    else confidence
  let confidence :=
    if pySubstr "não sei" (pyLower response)
        || pySubstr "não tenho certeza" (pyLower response) then confidence - 0.3
    else confidence
  let confidence := if pySubstr "?" response then confidence - 0.1 else confidence
  max 0.1 (min 0.99 confidence)

/-- Outcomes of the collaborator calls one `think` run makes.  The calls
into the learning engine (`get_or_create_profile`, `record_interaction`,
`detect_patterns`, `record_response`) are attribute lookups on an object
whose class in this repository does not define them, so at runtime they
raise; the oracle covers that as the `.error` cases. -/
structure ThinkOracle where
  profile : Except PyErr UserProfileM
  record_interaction : Except PyErr Unit
  patterns : Except PyErr (List PatternView)
  ctx : CtxOutcomes
  providers : Providers
  record_response : Except PyErr Unit
  /-- observed `time.time() - start_time`. -/
  elapsed : ℚ

/-- The apology returned by `think`'s `except` branch. -/
def apology : String :=
  "Desculpe, estou com dificuldades técnicas no momento. Por favor, tente novamente."

/-- Python truthiness of a context value
(for `bool(context.get("conversation_history"))`). -/
def ctxTruthy : Option CtxVal → Bool
  | none => false
  | some (CtxVal.strV s) => s ≠ ""
  | some (CtxVal.histV h) => h ≠ []
  | some (CtxVal.prefsV m) => m ≠ []
  | some (CtxVal.itemsV l) => l ≠ []
  | some (CtxVal.docsV l) => l ≠ []
  | some (CtxVal.profileV _ _ _ _) => true
  | some (CtxVal.patternsV _) => true

/-- The result `think` hands back to the transport layer. -/
structure ThinkResult where
  response : String
  metadata : List (String × MVal)

/-- The `context` dict as it stands when `think` builds its return value:
`_build_context`'s result extended with the `user_profile` and `patterns`
keys (steps 4-5). -/
def think_context (o : ThinkOracle) (profile : UserProfileM)
    (patterns : List PatternView) : Ctx :=
  assocSet
    (assocSet (build_context o.ctx) "user_profile"
      (CtxVal.profileV profile.communication_style profile.expertise_level
        profile.preferences profile.satisfaction_score))
    "patterns"
    (CtxVal.patternsV ((patterns.take 5).map
      (fun p => (p.pattern_type, p.description, p.confidence))))

/-- The value `think` returns on its success path (steps 6-12).  Prompt
construction (`_build_enhanced_prompt_with_learning`) is a pure string
build that neither raises nor influences any branch, and
`_store_interaction` catches all its exceptions; both are elided.  The
satisfaction update of step 10 feeds the
`personalization.satisfaction_score` metadata. -/
def success_result (o : ThinkOracle) (user_id message channel : String)
    (profile : UserProfileM) (patterns : List PatternView) : ThinkResult :=
  let context := think_context o profile patterns
  let gen := generate_response o.providers
  let response := gen.1
  let confidence := calculate_confidence response
  let ml := pyLower message
  let sat' : ℚ :=
    if pySubstr "obrigado" ml || pySubstr "perfeito" ml then
      min 1 (profile.satisfaction_score + 0.1)
    else if pySubstr "não entendi" ml || pySubstr "errado" ml then
      max 0 (profile.satisfaction_score - 0.1)
    else profile.satisfaction_score
  { response := response,
    metadata :=
      [("user_id", MVal.s user_id),
       ("channel", MVal.s channel),
       ("processing_time", MVal.q o.elapsed),
       ("confidence", MVal.q confidence),
       ("provider",
         match assocGet context "provider_used" with
         | some v => MVal.fromCtx v
         | none => MVal.s "unknown"),
       ("memory_context",
         MVal.b (ctxTruthy (assocGet context "conversation_history"))),
       ("personalization", MVal.sub
         [("style", MVal.s profile.communication_style),
          ("expertise", MVal.s profile.expertise_level),
          ("patterns_detected", MVal.n patterns.length),
          ("satisfaction_score", MVal.q sat')])] }

/-- The `try` body of `BotBrain.think` (steps 1-12): the learning-engine
calls in order, then the pure rest.  (`record_response` is awaited after
the pure response generation; since generation is modelled as pure, its
outcome is sequenced here with the other fallible calls.) -/
def thinkBody (o : ThinkOracle) (user_id message channel : String) :
    Except PyErr ThinkResult := do
  let profile ← o.profile
  let _ ← o.record_interaction
  let patterns ← o.patterns
  let _ ← o.record_response
  .ok (success_result o user_id message channel profile patterns)

/-- `BotBrain.think`: the body under `try`, with the `except Exception`
branch returning the apology and `error: True`. -/
def think (o : ThinkOracle) (user_id message channel : String) : ThinkResult :=
  match thinkBody o user_id message channel with
  | .ok r => r
  | .error e =>
      { response := apology,
        metadata :=
          [("user_id", MVal.s user_id),
           ("channel", MVal.s channel),
           ("error", MVal.b true),
           ("error_type", MVal.s e)] }

end BotBrain

/-! ## Pattern detector: `learning/analyzers/pattern_detector.py`

`detect_patterns(user_id, current_message, conversation_history)` runs
five detectors and then stamps every pattern with
`detected_at = datetime.now().isoformat()` and the user id; the wall
clock enters only through that stamp, modelled as the explicit `now_iso`
argument.  Pattern dicts become one structure with `Option` fields for
keys that only some detectors set. -/

namespace PatternDetector

structure Pattern where
  patternType : String
  description : String
  confidence : ℚ
  occurrences : Option Nat := none
  examples : Option (List (String × Option String × ℚ)) := none
  suggestion : Option String := none
  peakHour : Option Nat := none
  timePeriod : Option String := none
  sequence : Option (List String) := none
  sentiment : Option String := none
  score : Option Int := none
  positiveSignals : Option Nat := none
  negativeSignals : Option Nat := none
  commandType : Option String := none
  matchedPattern : Option String := none
  detectedAt : Option String := none
  userId : Option String := none
deriving DecidableEq, Repr

/-- A word character of the regex class `\w` (with re.UNICODE), over the
ASCII range plus the accented letters this codebase's Portuguese text
uses: letters, digits and underscore. -/
def isWordChar (c : Char) : Bool :=
  c.isAlphanum || c = '_'
    || c ∈ ['á', 'à', 'â', 'ã', 'é', 'ê', 'í', 'ó', 'ô', 'õ', 'ú', 'ç',
            'Á', 'À', 'Â', 'Ã', 'É', 'Ê', 'Í', 'Ó', 'Ô', 'Õ', 'Ú', 'Ç']

/-- `_normalize_message`: lowercase, map non-word non-space characters to
spaces, then collapse whitespace runs. -/
def normalize_message (m : String) : String :=
  if m = "" then ""
  else
    let lowered := pyLower m
    let subbed := String.mk (lowered.data.map
      (fun c => if isWordChar c || c.isWhitespace then c else ' '))
    String.intercalate " " (pySplitWs subbed)

/-- `_calculate_similarity`: Jaccard over the word sets of two (already
normalized) texts, with the source's emptiness guards. -/
def calculate_similarity (t1 t2 : String) : ℚ :=
  if t1 = "" ∨ t2 = "" then 0
  else
    let w1 := pySplitWs t1
    let w2 := pySplitWs t2
    if w1 = [] ∨ w2 = [] then 0 else jaccard w1 w2

/-- `_detect_recurring_questions`: messages of the history whose
normalized form is ≥ 0.7-similar to the normalized current message;
a pattern when at least 2 such messages exist. -/
def detect_recurring_questions (current : String)
    (history : List ConvData) : List Pattern :=
  if history = [] then []
  else
    let cn := normalize_message current
    let similar : List (String × Option String × ℚ) :=
      history.filterMap (fun item =>
        let m := (item.message).getD ""
        if m ≠ "" then
          let s := calculate_similarity cn (normalize_message m)
          if (0.7 : ℚ) ≤ s then some (m, item.tsIso, s) else none
        else none)
    if 2 ≤ similar.length then
      [{ patternType := "recurring_question",
         description := "Pergunta recorrente detectada",
         occurrences := some similar.length,
         confidence := min 0.9 ((similar.length : ℚ) * 0.2),
         examples := some (similar.take 3),
         suggestion := some "Considerar criar resposta padrão ou FAQ" }]
    else []

/-- The numeric value of a decimal digit character. -/
def digitVal (c : Char) : Nat := c.toNat - 48

/-- Modelled recognizer of `datetime.fromisoformat` (applied after the
source's `.replace('Z', '+00:00')`), returning the parsed `.hour`: the
prefix `YYYY-MM-DD` + (`T` or space) + `HH:MM` is validated with field
ranges; the optional seconds/fraction/offset suffix is accepted
unchecked. -/
def iso_hour_raw (cs : List Char) : Option Nat :=
  match cs with
  | y1 :: y2 :: y3 :: y4 :: '-' :: m1 :: m2 :: '-' :: d1 :: d2 :: sep ::
      h1 :: h2 :: ':' :: mi1 :: mi2 :: _ =>
      if (sep = 'T' ∨ sep = ' ')
          ∧ [y1, y2, y3, y4, m1, m2, d1, d2, h1, h2, mi1, mi2].all Char.isDigit
          ∧ 1 ≤ digitVal m1 * 10 + digitVal m2
          ∧ digitVal m1 * 10 + digitVal m2 ≤ 12
          ∧ 1 ≤ digitVal d1 * 10 + digitVal d2
          ∧ digitVal d1 * 10 + digitVal d2 ≤ 31
          ∧ digitVal h1 * 10 + digitVal h2 ≤ 23
          ∧ digitVal mi1 * 10 + digitVal mi2 ≤ 59 then
        some (digitVal h1 * 10 + digitVal h2)
      else none
  | _ => none

/-- `'Z'` → `'+00:00'` replacement done before parsing timestamps. -/
def replaceZ : List Char → List Char
  | [] => []
  | c :: cs =>
      if c = 'Z' then '+' :: '0' :: '0' :: ':' :: '0' :: '0' :: replaceZ cs
      else c :: replaceZ cs

/-- Hour extraction used by `_detect_daily_routines` (parse failures are
skipped by the `except: continue`). -/
def iso_hour (s : String) : Option Nat := iso_hour_raw (replaceZ s.data)

/-- `collections.Counter` over hours: counts keyed in first-occurrence
order. -/
def hour_counts (hs : List Nat) : List (Nat × Nat) :=
  hs.foldl
    (fun acc h =>
      if acc.any (fun p => p.1 == h) then
        acc.map (fun p => if p.1 == h then (p.1, p.2 + 1) else p)
      else acc ++ [(h, 1)])
    []

/-- `Counter.most_common(1)[0]`: the entry with the largest count,
first-encountered key winning ties. -/
def most_common_1 (l : List (Nat × Nat)) : Option (Nat × Nat) :=
  l.foldl
    (fun best p =>
      match best with
      | none => some p
      | some q => if q.2 < p.2 then some p else some q)
    none

/-- `_get_time_period`. -/
def get_time_period (hour : Nat) : String :=
  if 5 ≤ hour ∧ hour < 12 then "manhã"
  else if 12 ≤ hour ∧ hour < 18 then "tarde"
  else if 18 ≤ hour ∧ hour < 22 then "noite"
  else "madrugada"

/-- `_detect_daily_routines`: hour-of-day histogram over parseable
timestamps; a pattern when the peak hour has at least 3 occurrences. -/
def detect_daily_routines (history : List ConvData) : Option Pattern :=
  if history = [] then none
  else
    let hours := history.filterMap (fun item =>
      match item.tsIso with
      | some t => if t ≠ "" then iso_hour t else none
      | none => none)
    match most_common_1 (hour_counts hours) with
    | none => none
    | some (peak, count) =>
        if 3 ≤ count then
          some
            { patternType := "daily_routine",
              description := "Rotina de " ++ get_time_period peak ++ " detectada",
              peakHour := some peak,
              occurrences := some count,
              confidence := min 0.8 ((count : ℚ) * 0.15),
              timePeriod := some (get_time_period peak),
              suggestion :=
                some ("Preparar respostas otimizadas para " ++ get_time_period peak) }
        else none

/-- `_extract_topic`: the first keyword-table topic whose keyword occurs
in the lowercased message, defaulting to "general"; `None` only for the
empty message. -/
def extract_topic (m : String) : Option String :=
  if m = "" then none
  else
    let ml := pyLower m
    let table : List (String × List String) :=
      [("finance", ["financeiro", "orçamento", "custo", "receita", "faturamento"]),
       ("report", ["relatório", "report", "dashboard", "análise"]),
       ("help", ["ajuda", "dúvida", "como", "tutorial"]),
       ("data", ["dados", "informação", "buscar", "consultar"]),
       ("status", ["status", "situação", "andamento"]),
       ("greeting", ["olá", "oi", "bom dia", "boa tarde", "boa noite"])]
    some (((table.find? (fun p => p.2.any (fun k => pySubstr k ml))).map
      (fun p => p.1)).getD "general")

/-- All in-order n-grams of length `n`. -/
def ngrams (n : Nat) (ts : List String) : List (List String) :=
  (List.range (ts.length + 1 - n)).map (fun i => (ts.drop i).take n)

/-- `_find_sequences`: counts of all 2-grams and 3-grams (keys in
first-occurrence order, as for a `Counter`), keeping those seen more than
once. -/
def find_sequences (topics : List String) : List (List String × Nat) :=
  let grams := ngrams 2 topics ++ ngrams 3 topics
  let counts := grams.foldl
    (fun acc g =>
      if acc.any (fun p => p.1 == g) then
        acc.map (fun p => if p.1 == g then (p.1, p.2 + 1) else p)
      else acc ++ [(g, 1)])
    []
  counts.filter (fun p => 1 < p.2)

/-- `_detect_topic_sequences`: topic labels of the last 10 messages,
one pattern per repeated 2-gram or 3-gram. -/
def detect_topic_sequences (history : List ConvData) : List Pattern :=
  if history.length < 3 then []
  else
    let topics := (history.drop (history.length - 10)).filterMap
      (fun item => extract_topic ((item.message).getD ""))
    (find_sequences topics).filterMap (fun p =>
      if 2 ≤ p.2 then
        some
          { patternType := "topic_sequence",
            description :=
              "Sequência de tópicos: " ++ String.intercalate " -> " p.1,
            sequence := some p.1,
            occurrences := some p.2,
            confidence := min 0.7 ((p.2 : ℚ) * 0.25),
            suggestion := some "Antecipar próximo tópico na sequência" }
      else none)

/-- The positive indicator list of `_detect_satisfaction_patterns`. -/
def positive_indicators : List String :=
  ["obrigado", "valeu", "perfeito", "ótimo", "excelente",
   "muito bom", "ajudou", "resolveu", "funcionou", "top"]

/-- The negative indicator list of `_detect_satisfaction_patterns`. -/
def negative_indicators : List String :=
  ["não entendi", "errado", "incorreto", "não é isso",
   "péssimo", "ruim", "não funcionou", "problema continua",
   "não ajudou", "confuso"]

/-- `_detect_satisfaction_patterns`: count indicators in the lowercased
message; a sentiment pattern when any indicator occurs. -/
def detect_satisfaction_patterns (message : String) : Option Pattern :=
  let ml := pyLower message
  let pc := (positive_indicators.filter (fun w => pySubstr w ml)).length
  let nc := (negative_indicators.filter (fun w => pySubstr w ml)).length
  if 0 < pc ∨ 0 < nc then
    let sentiment := if nc < pc then "positive" else "negative"
    let score : Int := (pc : Int) - (nc : Int)
    some
      { patternType := "satisfaction_signal",
        description :=
          "Sinal de "
            ++ (if sentiment = "positive" then "satisfação" else "insatisfação")
            ++ " detectado",
        sentiment := some sentiment,
        score := some score,
        confidence := min 0.9 ((score.natAbs : ℚ) * 0.3),
        positiveSignals := some pc,
        negativeSignals := some nc,
        suggestion :=
          some (if sentiment = "negative" then
                  "Ajustar abordagem baseado no feedback"
                else "Manter abordagem atual") }
  else none

/-- `re.search` of a pattern `(a1|...|an).*(b1|...|bm)` on `hay`: some
alternative of the first group occurs, some alternative of the second
group occurs later, and the gap matched by `.*` holds no newline. -/
def seqMatch (as bs : List String) (hay : String) : Bool :=
  let h := hay.data
  (List.range (h.length + 1)).any (fun i =>
    as.any (fun a =>
      a.data.isPrefixOf (h.drop i)
        && (List.range (h.length + 1)).any (fun j =>
          decide (i + a.length ≤ j)
            && !((h.drop (i + a.length)).take (j - (i + a.length))).contains '\n'
            && bs.any (fun b => b.data.isPrefixOf (h.drop j)))))

/-- The command table of `_detect_command_patterns`: name, match of the
regex on the lowercased message, and the regex source text.  Optional
trailing letters (`r?`, `s?`) are expanded into both alternatives. -/
def command_matches (ml : String) : List (String × Bool × String) :=
  [("report_request",
    seqMatch ["gerar", "gera", "criar", "cria", "fazer", "faze", "montar", "monta"]
      ["relatório", "report", "dashboard"] ml,
    "(gerar?|criar?|fazer?|montar?).*(relatório|report|dashboard)"),
   ("data_query",
    seqMatch ["buscar", "busca", "procurar", "procura", "encontrar", "encontra",
              "listar", "lista"]
      ["dados", "dado", "informaç", "registros", "registro"] ml,
    "(buscar?|procurar?|encontrar?|listar?).*(dados?|informaç|registros?)"),
   ("help_request",
    pyContainsAny ["ajuda", "help", "socorro", "dúvida", "como", "tutorial"] ml,
    "(ajuda|help|socorro|dúvida|como|tutorial)"),
   ("status_check",
    pyContainsAny ["status", "situação", "andamento", "progresso"] ml,
    "(status|situação|andamento|progresso)"),
   ("calculation",
    pyContainsAny ["calcular", "calcula", "somar", "soma", "média", "total",
                   "quanto"] ml,
    "(calcular?|somar?|média|total|quanto)"),
   ("comparison",
    pyContainsAny ["comparar", "compara", "diferença", "versus", "melhor",
                   "pior"] ml,
    "(comparar?|diferença|versus|melhor|pior)")]

/-- `_detect_command_patterns`: one pattern per matching command regex,
in table order. -/
def detect_command_patterns (message : String) : List Pattern :=
  (command_matches (pyLower message)).filterMap (fun c =>
    if c.2.1 then
      some
        { patternType := "command_pattern",
          description := "Comando detectado: " ++ c.1,
          commandType := some c.1,
          confidence := 0.8,
          matchedPattern := some c.2.2,
          suggestion := some ("Executar ação específica para " ++ c.1) }
    else none)

/-- The five detectors, before metadata stamping. -/
def detect_core (current_message : String) (history : List ConvData) :
    List Pattern :=
  detect_recurring_questions current_message history
    ++ (detect_daily_routines history).toList
    ++ detect_topic_sequences history
    ++ (detect_satisfaction_patterns current_message).toList
    ++ detect_command_patterns current_message

/-- `PatternDetector.detect_patterns(user_id, current_message,
conversation_history)`: run the detectors, then stamp each pattern with
`detected_at = datetime.now().isoformat()` (the explicit `now_iso`) and
the user id.  The pattern-cache update only feeds `get_pattern_summary`,
not this return value. -/
def detect_patterns (user_id current_message : String)
    (history : List ConvData) (now_iso : String) : List Pattern :=
  (detect_core current_message history).map
    (fun p => { p with detectedAt := some now_iso, userId := some user_id })

end PatternDetector

/-! ## Simplified detector: `learning/core/learning_engine.py`

`LearningEngine._detect_patterns(user_id, message)` fetches the last 10
history turns and emits a `recurring_question` pattern from a similarity
scan plus a clock-dependent `morning_routine` pattern when
`datetime.now().hour` is 9 or 10.  The fetched history and the clock hour
are explicit arguments. -/

namespace LearningEngine

structure LEPattern where
  patternType : String
  confidence : ℚ
  count : Option Nat := none
deriving DecidableEq, Repr

/-- `LearningEngine._similarity`: Jaccard over lowercased word sets. -/
def similarity (t1 t2 : String) : ℚ :=
  if t1 = "" ∨ t2 = "" then 0
  else
    let w1 := pySplitWs (pyLower t1)
    let w2 := pySplitWs (pyLower t2)
    if w1 = [] ∨ w2 = [] then 0 else jaccard w1 w2

/-- `LearningEngine._detect_patterns(user_id, message)` with the history
it fetches and the current clock hour made explicit. -/
def detect_patterns (user_id : String) (message : String)
    (history : List ConvData) (hour : Nat) : List LEPattern :=
  let _ := user_id
  let recurring : List LEPattern :=
    if history ≠ [] then
      let similar := history.filter
        (fun h => (0.7 : ℚ) < similarity message ((h.message).getD ""))
      if 2 ≤ similar.length then
        [{ patternType := "recurring_question",
           count := some similar.length, confidence := 0.8 }]
      else []
    else []
  recurring
    ++ (if 9 ≤ hour ∧ hour ≤ 10 then
          [{ patternType := "morning_routine", confidence := 0.6 }]
        else [])

end LearningEngine

/-! ## Spec-side definitions and concrete fixtures

Definitions in this section are written from the specification's wording
(for refinement comparisons) or are concrete inputs used by witnesses and
counterexamples; they are not part of the source embedding above. -/

namespace MemoryManager

/-- Spec wording: a tier write path "succeeded" when the attempted write
reported success. -/
def write_path_succeeded : Option (Except PyErr Bool) → Bool
  | some (.ok true) => true
  | _ => false

/-- Spec wording for C2: at least one of the write paths attempted by
`save_conversation` (HOT, WARM, and COLD when the confidence exceeds 0.8)
succeeded. -/
def spec_save_success (o : SaveOutcomes) (metaConfidence : Option ℚ) : Bool :=
  write_path_succeeded o.hot || write_path_succeeded o.warm
    || (decide (metaConfidence.getD (1/2) > 4/5) && write_path_succeeded o.cold)

/-- A tier `save` call that returned at all (its boolean ignored) — this is
what the code actually folds into its `saved` flag. -/
def call_returned : Option (Except PyErr Bool) → Bool
  | some (.ok _) => true
  | _ => false

/-- Fixture for C3: HOT present and empty, WARM absent, COLD present and
holding one conversation — queried with `limit = 3` and no `time_range`. -/
def tiersC3 : HistoryTiers :=
  { hot := some (fun _ _ => .ok []),
    warm := none,
    cold := some (fun _ _ _ =>
      .ok [{ userId := some "u", tsIso := some "2024-01-01T10:00:00" }]) }

end MemoryManager

namespace BotBrain

/-- "the primary and the fallback provider fail or are unavailable"
(C4): the slot is empty, reports unavailable, or its generate call
raises. -/
def provider_fails : Option ProviderB → Prop
  | none => True
  | some p => p.available = false ∨ ∃ e, p.gen = .error e

/-- Whether a response carries the markers by which
`_calculate_confidence` identifies static/error responses. -/
def static_marked (r : String) : Bool :=
  pySubstr "dificuldades técnicas" r || pySubstr "temporariamente indisponíveis" r

/-- The hedging test of `_calculate_confidence`. -/
def hedging (r : String) : Bool :=
  pySubstr "não sei" (pyLower r) || pySubstr "não tenho certeza" (pyLower r)

/-- The prior-context echo test of `_calculate_confidence`. -/
def echoes_context (r : String) : Bool :=
  pyContainsAny ["você mencionou", "anteriormente", "como disse", "conforme"]
    (pyLower r)

/-- C6 as written: start at 0.7; −0.2 if shorter than 10; +0.1 if longer
than 100; −0.3 on hedging; −0.1 on a question mark; +0.1 on echo; clamp
to the interval 0.1 to 0.99; and a static/error response is forced to
0.2. -/
def confidence_claimed (r : String) : ℚ :=
  if static_marked r then 0.2
  else
    max 0.1 (min 0.99
      (0.7 + (if r.length < 10 then -0.2 else 0)
        + (if r.length > 100 then 0.1 else 0)
        + (if hedging r then -0.3 else 0)
        + (if pySubstr "?" r then -0.1 else 0)
        + (if echoes_context r then 0.1 else 0)))

/-- C6 amended: a static/error marker replaces the base-and-length step
with the value 0.2, after which the echo, hedging and question-mark
adjustments still apply, and only then is the result clamped. -/
def confidence_amended (r : String) : ℚ :=
  let base : ℚ :=
    if static_marked r then 0.2
    else if r.length < 10 then 0.7 - 0.2
    else if r.length > 100 then 0.7 + 0.1
    else 0.7
  max 0.1 (min 0.99
    (base + (if echoes_context r then 0.1 else 0)
      + (if hedging r then -0.3 else 0)
      + (if pySubstr "?" r then -0.1 else 0)))

/-- Fixture: context-building outcomes where every collaborator succeeds
and finds nothing. -/
def ctxEmpty : CtxOutcomes :=
  { has_memory := true, history := .ok [], user_context := [],
    has_learning_system := true, learning := .ok ⟨none, none⟩,
    has_retrieval := true, retrieval := .ok [] }

/-- Fixture for C5: the primary provider raises a timeout, the fallback
succeeds, every learning-engine call succeeds. -/
def oracleC5 : ThinkOracle :=
  { profile := .ok
      { communication_style := "neutral", expertise_level := "intermediate",
        preferences := [], satisfaction_score := 0.5 },
    record_interaction := .ok (),
    patterns := .ok [],
    ctx := ctxEmpty,
    providers :=
      { primary := some { available := true, gen := .error "Timeout" },
        fallback := some { available := true, gen := .ok "Tudo certo! Como posso ajudar?" } },
    record_response := .ok (),
    elapsed := 0 }

/-- Fixture for C4: no provider could be initialized; all other
collaborator calls succeed. -/
def oracleC4 : ThinkOracle :=
  { profile := .ok
      { communication_style := "neutral", expertise_level := "intermediate",
        preferences := [], satisfaction_score := 0.5 },
    record_interaction := .ok (),
    patterns := .ok [],
    ctx := ctxEmpty,
    providers := { primary := none, fallback := none },
    record_response := .ok (),
    elapsed := 0 }

/-- Fixture for the C5 witness: same scenario as `oracleC5` with a
different fallback answer. -/
def oracleC5w : ThinkOracle :=
  { oracleC5 with
    providers :=
      { primary := some { available := true, gen := .error "ReadTimeout" },
        fallback := some { available := true, gen := .ok "Claro, posso ajudar." } } }

/-- Fixture for the C1 witness: the first learning-engine call raises
(as it does in this repository, where `LearningEngine` defines no
`get_or_create_profile`). -/
def oracleC1 : ThinkOracle :=
  { oracleC4 with profile := .error "AttributeError" }

end BotBrain

namespace RAMProvider

/-- Cross-user isolation invariant: every item sitting in a user's deque
carries that user's id (the bucket key is `data.get("user_id", "unknown")`
at save time). -/
def bucketInv (st : State) : Prop :=
  ∀ u b, (u, b) ∈ st.storage → ∀ it ∈ b, it.data.userId.getD "unknown" = u

end RAMProvider

namespace PatternDetector

/-- Erase the wall-clock stamp from a detected pattern. -/
def stripStamp (p : Pattern) : Pattern := { p with detectedAt := none }

end PatternDetector

/-! ## Theorems -/

/-! ### C2 — `save_conversation` success reporting -/

/-- C2 counterexample: with only the HOT tier configured and its `save`
returning `False` (the RAM provider's internal-error report), no tier
write path succeeded, yet `save_conversation` reports success — the
awaited call's boolean is ignored.  So "success iff at least one tier
write path succeeded" is false as stated. -/
theorem claim_C2_counterexample :
    MemoryManager.save_conversation ⟨some (.ok false), none, none⟩ (some 0.5) = true
    ∧ MemoryManager.spec_save_success ⟨some (.ok false), none, none⟩ (some 0.5) = false :=
  ⟨rfl, by simp [MemoryManager.spec_save_success, MemoryManager.write_path_succeeded]⟩

/-- C2 amended: `save_conversation` reports success iff the HOT or WARM
`save` call returned at all (raised no exception); the returned boolean
is ignored, and a COLD write never contributes to the result.  In
particular the call never raises, and with every tier absent it reports
failure. -/
theorem claim_C2_amended :
    ∀ (o : MemoryManager.SaveOutcomes) (c : Option ℚ),
      MemoryManager.save_conversation o c
        = (MemoryManager.call_returned o.hot || MemoryManager.call_returned o.warm) := by
  intro o c
  obtain ⟨h, w, cold⟩ := o
  cases h with
  | none =>
      cases w with
      | none => rfl
      | some ew => cases ew <;> rfl
  | some eh =>
      cases eh <;>
        (cases w with
         | none => rfl
         | some ew => cases ew <;> rfl)

/-! ### C8 — TTL filtering in the HOT tier -/

theorem RAMProvider.ttlSeconds_save (st : RAMProvider.State) (k : String)
    (d : ConvData) (now : Nat) :
    ((RAMProvider.save st k d now).1).ttlSeconds = st.ttlSeconds := by
  simp only [RAMProvider.save, RAMProvider.cleanupExpired]
  split <;> rfl

theorem RAMProvider.ttlSeconds_applySaves (st : RAMProvider.State)
    (ops : List (String × ConvData × Nat)) :
    (RAMProvider.applySaves st ops).ttlSeconds = st.ttlSeconds := by
  induction ops generalizing st with
  | nil => rfl
  | cons op ops ih =>
      calc (RAMProvider.applySaves (RAMProvider.save st op.1 op.2.1 op.2.2).1 ops).ttlSeconds
          = ((RAMProvider.save st op.1 op.2.1 op.2.2).1).ttlSeconds := ih _
        _ = st.ttlSeconds := RAMProvider.ttlSeconds_save st op.1 op.2.1 op.2.2

/-- C8: in any state reached by a sequence of saves on a HOT tier with a
`ttl_minutes` TTL, an item whose age at read time exceeds the TTL is
never among the items `search` selects (so it is absent from
`get_conversation_history`, which only concatenates tier results).  E.g.
an item inserted 31 minutes before a read under a 30-minute TTL. -/
theorem claim_C8_ttl_eviction :
    ∀ (maxItems ttlMin : Nat) (ops : List (String × ConvData × Nat))
      (uid : String) (limit now : Nat) (it : RAMProvider.Item),
      ttlMin * 60 < now - it.timestamp →
      it ∉ RAMProvider.searchItems
        (RAMProvider.applySaves (RAMProvider.init maxItems ttlMin) ops)
        uid limit now := by
  intro maxItems ttlMin ops uid limit now it hexp hmem
  unfold RAMProvider.searchItems at hmem
  rcases hfind : assocGet (RAMProvider.applySaves
      (RAMProvider.init maxItems ttlMin) ops).storage uid with _ | bucket
  · rw [hfind] at hmem
    simp at hmem
  · rw [hfind] at hmem
    have hpred := (List.mem_filter.mp hmem).2
    have httl : (RAMProvider.applySaves
        (RAMProvider.init maxItems ttlMin) ops).ttlSeconds = ttlMin * 60 :=
      RAMProvider.ttlSeconds_applySaves _ _
    rw [httl] at hpred
    simp only [decide_eq_true_eq] at hpred
    omega

/-- C8 witness: a turn saved at second 0 with a 30-minute TTL is not
selected by a search at second 1860 (31 minutes later). -/
theorem claim_C8_witness :
    30 * 60 < 1860 - 0
    ∧ (⟨"k", { userId := some "u" }, 0⟩ : RAMProvider.Item) ∉
        RAMProvider.searchItems
          (RAMProvider.applySaves (RAMProvider.init 20 30)
            [("k", { userId := some "u" }, 0)]) "u" 10 1860 :=
  ⟨by decide,
   claim_C8_ttl_eviction 20 30 [("k", { userId := some "u" }, 0)] "u" 10 1860
     ⟨"k", { userId := some "u" }, 0⟩ (by decide)⟩

/-! ### C10 — HOT search window semantics -/

/-- C10: `RAMProvider.search` returns exactly the data of the unexpired
items among the `limit` most recently stored slots of the user's deque
(most-recent-first); and, concretely, it can return fewer than `limit`
unexpired items even though the user still holds an older unexpired item
outside the examined window (second conjunct: the slot inside the window
is expired at read time, the older slot outside it is not, and the search
returns nothing). -/
theorem claim_C10_window :
    (∀ (st : RAMProvider.State) (uid : String) (limit now : Nat),
      RAMProvider.search st uid limit now
        = (((RAMProvider.bucketOf st uid).reverse.take limit).filter
            (fun it => now - it.timestamp ≤ st.ttlSeconds)).map
              (fun it => it.data))
    ∧ (RAMProvider.search
          (RAMProvider.applySaves (RAMProvider.init 20 30)
            [("k1", { userId := some "u", tsIso := some "2024-01-01T10:00:00" }, 2000),
             ("k2", { userId := some "u", tsIso := some "2024-01-01T10:16:40" }, 0)])
          "u" 1 2000 = []
        ∧ (⟨"k1", { userId := some "u", tsIso := some "2024-01-01T10:00:00" }, 2000⟩ :
              RAMProvider.Item) ∈
            RAMProvider.bucketOf
              (RAMProvider.applySaves (RAMProvider.init 20 30)
                [("k1", { userId := some "u", tsIso := some "2024-01-01T10:00:00" }, 2000),
                 ("k2", { userId := some "u", tsIso := some "2024-01-01T10:16:40" }, 0)]) "u"
        ∧ 2000 - 2000 ≤ (RAMProvider.applySaves (RAMProvider.init 20 30)
            [("k1", { userId := some "u", tsIso := some "2024-01-01T10:00:00" }, 2000),
             ("k2", { userId := some "u", tsIso := some "2024-01-01T10:16:40" }, 0)]).ttlSeconds) := by
  constructor
  · intro st uid limit now
    unfold RAMProvider.search RAMProvider.searchItems RAMProvider.bucketOf
    rcases hfind : assocGet st.storage uid with _ | bucket <;> simp [hfind]
  · exact ⟨by decide, by decide, by decide⟩

/-! ### Association-list lemmas shared by several claims -/

theorem mem_assocSet {α : Type} {d : List (String × α)} {k : String} {v : α}
    {p : String × α} (h : p ∈ assocSet d k v) : p = (k, v) ∨ p ∈ d := by
  unfold assocSet at h
  split at h
  · obtain ⟨q, hq, hfq⟩ := List.mem_map.mp h
    by_cases hqk : q.1 == k
    · left
      rw [if_pos hqk] at hfq
      exact hfq.symm
    · right
      rw [if_neg hqk] at hfq
      exact hfq ▸ hq
  · rcases List.mem_append.mp h with hmem | hone
    · exact Or.inr hmem
    · exact Or.inl (List.mem_singleton.mp hone)

theorem mem_storage_of_assocGet {α : Type} {d : List (String × α)}
    {u : String} {b : α} (h : assocGet d u = some b) : (u, b) ∈ d := by
  unfold assocGet at h
  rcases hf : d.find? (fun p => p.1 == u) with _ | q
  · rw [hf] at h; cases h
  · rw [hf] at h
    have hq := List.find?_some hf
    have hmem := List.mem_of_find?_eq_some hf
    have h2 : q.2 = b := by simpa using h
    have h1 : q.1 = u := by simpa using hq
    have : q = (u, b) := by
      cases q
      simp_all
    exact this ▸ hmem

theorem assocGet_eq_none_iff {α : Type} {d : List (String × α)} {k : String} :
    assocGet d k = none ↔ ∀ p ∈ d, p.1 ≠ k := by
  unfold assocGet
  simp [List.find?_eq_none]

theorem assocGet_assocSet_none {α : Type} {d : List (String × α)}
    {k k' : String} (v : α) (hne : k ≠ k') (h : assocGet d k' = none) :
    assocGet (assocSet d k v) k' = none := by
  rw [assocGet_eq_none_iff] at h ⊢
  intro p hp
  rcases mem_assocSet hp with rfl | hmem
  · exact hne
  · exact h p hmem

theorem BotBrain.mem_section_no_pu {o : BotBrain.CtxOutcomes}
    {c0 : BotBrain.Ctx} (h : BotBrain.mem_section o = .ok c0) :
    assocGet c0 "provider_used" = none := by
  unfold BotBrain.mem_section at h
  split at h
  · split at h
    · simp at h
    · rename_i hist hok
      injection h with h'
      subst h'
      split_ifs <;> rfl
  · injection h with h'
    subst h'
    rfl

theorem BotBrain.add_learning_no_pu (o : BotBrain.CtxOutcomes)
    {c0 : BotBrain.Ctx} (h : assocGet c0 "provider_used" = none) :
    assocGet (BotBrain.add_learning o c0) "provider_used" = none := by
  unfold BotBrain.add_learning
  rcases hl : o.learning with e | lc
  · split <;> exact h
  · split
    · dsimp only
      rcases lc with ⟨co, pr⟩
      cases co <;> cases pr <;> dsimp only <;> split_ifs <;>
        first
          | exact h
          | exact assocGet_assocSet_none _ (by decide) h
          | exact assocGet_assocSet_none _ (by decide)
              (assocGet_assocSet_none _ (by decide) h)
    · exact h

theorem BotBrain.add_retrieval_no_pu (o : BotBrain.CtxOutcomes)
    {c1 : BotBrain.Ctx} (h : assocGet c1 "provider_used" = none) :
    assocGet (BotBrain.add_retrieval o c1) "provider_used" = none := by
  unfold BotBrain.add_retrieval
  rcases hr : o.retrieval with e | docs
  · split <;> exact h
  · split
    · dsimp only
      split_ifs
      · exact assocGet_assocSet_none _ (by decide) h
      · exact h
    · exact h

/-- `_build_context` never writes a `provider_used` key (nor does anything
else): the brain's metadata lookup of it can only hit its default. -/
theorem BotBrain.build_context_no_pu (o : BotBrain.CtxOutcomes) :
    assocGet (BotBrain.build_context o) "provider_used" = none := by
  unfold BotBrain.build_context
  rcases hms : BotBrain.mem_section o with e | c0
  · rfl
  · exact BotBrain.add_retrieval_no_pu _
      (BotBrain.add_learning_no_pu _ (BotBrain.mem_section_no_pu hms))

theorem BotBrain.think_context_no_pu (o : BotBrain.ThinkOracle)
    (profile : BotBrain.UserProfileM) (patterns : List BotBrain.PatternView) :
    assocGet (BotBrain.think_context o profile patterns) "provider_used" = none :=
  assocGet_assocSet_none _ (by decide)
    (assocGet_assocSet_none _ (by decide) (BotBrain.build_context_no_pu o.ctx))

/-- On the success path the `provider` metadata entry is always the
string `unknown` — the dict key `provider_used` it is read from is never
written anywhere. -/
theorem BotBrain.success_result_provider (o : BotBrain.ThinkOracle)
    (uid msg ch : String) (p : BotBrain.UserProfileM)
    (pats : List BotBrain.PatternView) :
    assocGet (BotBrain.success_result o uid msg ch p pats).metadata "provider"
      = some (BotBrain.MVal.s "unknown") := by
  show some (match assocGet (BotBrain.think_context o p pats) "provider_used" with
             | some v => BotBrain.MVal.fromCtx v
             | none => BotBrain.MVal.s "unknown")
      = some (BotBrain.MVal.s "unknown")
  rw [BotBrain.think_context_no_pu]

/-! ### C7 — partition isolation in the HOT tier -/

theorem RAMProvider.bucketInv_save {st : RAMProvider.State}
    (h : RAMProvider.bucketInv st) (k : String) (d : ConvData) (now : Nat) :
    RAMProvider.bucketInv ((RAMProvider.save st k d now).1) := by
  intro u b hb it hit
  have hstorage : ((RAMProvider.save st k d now).1).storage
      = assocSet st.storage (d.userId.getD "unknown")
          (RAMProvider.dequeAppend st.maxItems
            (RAMProvider.bucketOf st (d.userId.getD "unknown"))
            { key := k, data := d, timestamp := now }) := by
    simp only [RAMProvider.save, RAMProvider.cleanupExpired]
    split <;> rfl
  rw [hstorage] at hb
  rcases mem_assocSet hb with heq | hmem
  · obtain ⟨hu, hbkt⟩ := Prod.mk.injEq .. ▸ heq
    subst hu
    rw [hbkt] at hit
    have hit' : it ∈ RAMProvider.bucketOf st (d.userId.getD "unknown")
        ++ [{ key := k, data := d, timestamp := now }] :=
      List.drop_subset _ _ hit
    rcases List.mem_append.mp hit' with hold | hnew
    · rcases hget : assocGet st.storage (d.userId.getD "unknown") with _ | b0
      · unfold RAMProvider.bucketOf at hold
        rw [hget] at hold
        cases hold
      · unfold RAMProvider.bucketOf at hold
        rw [hget] at hold
        exact h _ _ (mem_storage_of_assocGet hget) it hold
    · have : it = { key := k, data := d, timestamp := now } :=
        List.mem_singleton.mp hnew
      rw [this]
  · exact h _ _ hmem it hit

theorem RAMProvider.bucketInv_applySaves (st : RAMProvider.State)
    (h : RAMProvider.bucketInv st) (ops : List (String × ConvData × Nat)) :
    RAMProvider.bucketInv (RAMProvider.applySaves st ops) := by
  induction ops generalizing st with
  | nil => exact h
  | cons op ops ih => exact ih _ (RAMProvider.bucketInv_save h op.1 op.2.1 op.2.2)

theorem RAMProvider.bucketInv_init (m t : Nat) :
    RAMProvider.bucketInv (RAMProvider.init m t) := by
  intro u b hb
  cases hb

/-- C7: partition isolation.  Starting from an empty HOT tier, after any
sequence of saves, a conversation turn whose `user_id` is `u1` never
appears in a `search` for a different user `u2` — the bucket a turn is
stored under is exactly its own `user_id`, and `search` reads only the
target user's bucket. -/
theorem claim_C7_partition_isolation :
    ∀ (maxItems ttlMin : Nat) (ops : List (String × ConvData × Nat))
      (u1 u2 : String) (limit now : Nat) (d : ConvData),
      u1 ≠ u2 → d.userId = some u1 →
      d ∉ RAMProvider.search
        (RAMProvider.applySaves (RAMProvider.init maxItems ttlMin) ops)
        u2 limit now := by
  intro maxItems ttlMin ops u1 u2 limit now d hne huid hmem
  obtain ⟨it, hitsel, hdata⟩ := List.mem_map.mp hmem
  have hinv : RAMProvider.bucketInv
      (RAMProvider.applySaves (RAMProvider.init maxItems ttlMin) ops) :=
    RAMProvider.bucketInv_applySaves _ (RAMProvider.bucketInv_init _ _) _
  unfold RAMProvider.searchItems at hitsel
  rcases hfind : assocGet (RAMProvider.applySaves
      (RAMProvider.init maxItems ttlMin) ops).storage u2 with _ | bucket
  · rw [hfind] at hitsel
    cases hitsel
  · rw [hfind] at hitsel
    have hin : it ∈ bucket :=
      List.mem_reverse.mp
        (List.take_subset _ _ (List.mem_filter.mp hitsel).1)
    have := hinv u2 bucket (mem_storage_of_assocGet hfind) it hin
    rw [hdata, huid] at this
    exact hne (by simpa using this)

/-- C7 witness: a turn saved under `u1` is not returned by a search for
`u2`. -/
theorem claim_C7_witness :
    ("u1" : String) ≠ "u2"
    ∧ ({ userId := some "u1" } : ConvData) ∉ RAMProvider.search
        (RAMProvider.applySaves (RAMProvider.init 20 30)
          [("k1", { userId := some "u1" }, 5)]) "u2" 10 6 :=
  ⟨by decide,
   claim_C7_partition_isolation 20 30 [("k1", { userId := some "u1" }, 5)]
     "u1" "u2" 10 6 { userId := some "u1" } (by decide) rfl⟩

/-! ### C3 — tiered history lookup -/

/-- C3 counterexample: HOT is configured and empty, WARM absent, COLD is
configured and holds a conversation; with `limit = 3` and no `time_range`
(as every caller in `core/brain.py` invokes it), the limit is not
satisfied and the tiers are not exhausted, yet COLD is never queried and
the result is empty — against "queries HOT first, then WARM, then COLD,
accumulating until `limit` results are collected or the tiers are
exhausted". -/
theorem claim_C3_counterexample :
    (MemoryManager.get_conversation_history MemoryManager.tiersC3 "u" 3 none).2.coldQueried
        = false
    ∧ (MemoryManager.get_conversation_history MemoryManager.tiersC3 "u" 3 none).1 = [] :=
  ⟨rfl, rfl⟩

theorem MemoryManager.tierStep_fst
    (slot : Option (String → Nat → Except PyErr (List ConvData)))
    (uid : String) (needed : Int) :
    (MemoryManager.tierStep slot uid needed).1
      = (slot.isSome && decide (needed > 0)) := by
  cases slot with
  | none => rfl
  | some f =>
      simp only [MemoryManager.tierStep]
      split_ifs with h <;> simp [h]

theorem MemoryManager.coldTierStep_fst
    (slot : Option (String → Nat → (String × String) → Except PyErr (List ConvData)))
    (tr : Option (String × String)) (uid : String) (needed : Int) :
    (MemoryManager.coldTierStep slot tr uid needed).1
      = (slot.isSome && tr.isSome && decide (needed > 0)) := by
  cases slot with
  | none => cases tr <;> rfl
  | some f =>
      cases tr with
      | none => rfl
      | some rng =>
          simp only [MemoryManager.coldTierStep]
          split_ifs with h <;> simp [h]

/-- C3 amended: `get_conversation_history` queries HOT, then WARM while
the limit is unsatisfied, and COLD only while the limit is unsatisfied
AND a `time_range` is supplied; it never queries a colder tier once the
limit is satisfied, never returns more than `limit` items, and returns
the cross-tier merge sorted by timestamp descending, truncated to
`limit`. -/
theorem claim_C3_amended :
    ∀ (tiers : MemoryManager.HistoryTiers) (uid : String) (limit : Nat)
      (tr : Option (String × String)),
      (MemoryManager.get_conversation_history tiers uid limit tr).1.length ≤ limit
      ∧ List.Sorted MemoryManager.tsDesc
          (MemoryManager.get_conversation_history tiers uid limit tr).1
      ∧ (MemoryManager.get_conversation_history tiers uid limit tr).1
          = ((((MemoryManager.get_conversation_history tiers uid limit tr).2.hotRes
                ++ (MemoryManager.get_conversation_history tiers uid limit tr).2.warmRes
                ++ (MemoryManager.get_conversation_history tiers uid limit tr).2.coldRes).insertionSort
              MemoryManager.tsDesc).take limit)
      ∧ (MemoryManager.get_conversation_history tiers uid limit tr).2.hotQueried
          = (tiers.hot.isSome && decide ((limit : Int) > 0))
      ∧ (MemoryManager.get_conversation_history tiers uid limit tr).2.warmQueried
          = (tiers.warm.isSome && decide ((limit : Int)
              - (MemoryManager.get_conversation_history tiers uid limit tr).2.hotRes.length > 0))
      ∧ (MemoryManager.get_conversation_history tiers uid limit tr).2.coldQueried
          = (tiers.cold.isSome && tr.isSome && decide ((limit : Int)
              - (MemoryManager.get_conversation_history tiers uid limit tr).2.hotRes.length
              - (MemoryManager.get_conversation_history tiers uid limit tr).2.warmRes.length > 0)) := by
  intro tiers uid limit tr
  refine ⟨?_, ?_, rfl, ?_, ?_, ?_⟩
  · rw [show (MemoryManager.get_conversation_history tiers uid limit tr).1.length
        = ((((MemoryManager.get_conversation_history tiers uid limit tr).2.hotRes
            ++ (MemoryManager.get_conversation_history tiers uid limit tr).2.warmRes
            ++ (MemoryManager.get_conversation_history tiers uid limit tr).2.coldRes).insertionSort
            MemoryManager.tsDesc).take limit).length from rfl]
    rw [List.length_take]
    exact inf_le_left
  · exact List.Pairwise.sublist (List.take_sublist _ _)
      (List.sorted_insertionSort MemoryManager.tsDesc _)
  · exact MemoryManager.tierStep_fst tiers.hot uid limit
  · exact MemoryManager.tierStep_fst tiers.warm uid _
  · exact MemoryManager.coldTierStep_fst tiers.cold tr uid _

/-! ### C1 — `think` never raises; failures become an apology object -/

/-- C1: for every collaborator behaviour and every input, `think` returns
a response object (it is a total function — the `except Exception` branch
is the only exit besides the success return), and its metadata either
carries no `error` key at all, or carries `error = True` together with
the fixed short apology as the response text.  The `metadata` argument of
the Python signature only flows into the recorded interaction and is
absorbed by the `record_interaction` outcome. -/
theorem claim_C1_think_never_raises :
    ∀ (o : BotBrain.ThinkOracle) (uid msg ch : String),
      ((BotBrain.think o uid msg ch).response = BotBrain.apology
        ∧ assocGet (BotBrain.think o uid msg ch).metadata "error"
            = some (BotBrain.MVal.b true))
      ∨ assocGet (BotBrain.think o uid msg ch).metadata "error" = none := by
  intro o uid msg ch
  rcases o with ⟨prof, ri, pats, cx, prov, rr, el⟩
  cases prof <;> cases ri <;> cases pats <;> cases rr <;>
    first
      | exact Or.inl ⟨rfl, rfl⟩
      | exact Or.inr rfl

/-! ### C4 — total provider failure falls back to one static response -/

/-- C4 counterexample: with both providers out, the message `"oi"` gets
exactly the same fixed static response as a message with no greeting
keyword — there is no keyword match on the message and no separate
greeting response, against "a greeting response when the message contains
oi/olá, a generic response otherwise" (which requires those two responses
to differ). -/
theorem claim_C4_counterexample :
    (BotBrain.think BotBrain.oracleC4 "u1" "oi" "canal").response
        = BotBrain.static_response
    ∧ (BotBrain.think BotBrain.oracleC4 "u1" "qual o total da receita" "canal").response
        = BotBrain.static_response :=
  ⟨rfl, rfl⟩

/-- C4 amended: whenever both providers fail or are unavailable,
`_generate_response` returns the single fixed static response (whatever
the message), records `provider_used = "static"`, raises nothing (it is a
total function), and the confidence computed for that static response is
the forced low 0.2. -/
theorem claim_C4_amended :
    ∀ ps : BotBrain.Providers,
      BotBrain.provider_fails ps.primary →
      BotBrain.provider_fails ps.fallback →
      BotBrain.generate_response ps = (BotBrain.static_response, some "static")
      ∧ BotBrain.calculate_confidence BotBrain.static_response = 0.2 := by
  intro ps h1 h2
  constructor
  · rcases ps with ⟨pp, fb⟩
    rcases pp with _ | p
    · rcases fb with _ | q
      · rfl
      · rcases h2 with hav | ⟨e, hq⟩
        · simp [BotBrain.generate_response, BotBrain.pyFalsyStr, hav]
        · simp [BotBrain.generate_response, BotBrain.pyFalsyStr, hq]
    · rcases h1 with hav | ⟨e, hp⟩
      · rcases fb with _ | q
        · simp [BotBrain.generate_response, BotBrain.pyFalsyStr, hav]
        · rcases h2 with hav2 | ⟨e2, hq⟩
          · simp [BotBrain.generate_response, BotBrain.pyFalsyStr, hav, hav2]
          · simp [BotBrain.generate_response, BotBrain.pyFalsyStr, hav, hq]
      · rcases fb with _ | q
        · simp [BotBrain.generate_response, BotBrain.pyFalsyStr, hp]
        · rcases h2 with hav2 | ⟨e2, hq⟩
          · simp [BotBrain.generate_response, BotBrain.pyFalsyStr, hp, hav2]
          · simp [BotBrain.generate_response, BotBrain.pyFalsyStr, hp, hq]
  · have hmark : (pySubstr "dificuldades técnicas" BotBrain.static_response
        || pySubstr "temporariamente indisponíveis" BotBrain.static_response) = true := by
      decide
    have hecho : BotBrain.echoes_context BotBrain.static_response = false := by decide
    have hhedge : BotBrain.hedging BotBrain.static_response = false := by decide
    have hq : pySubstr "?" BotBrain.static_response = false := by decide
    unfold BotBrain.echoes_context at hecho
    unfold BotBrain.hedging at hhedge
    simp only [BotBrain.calculate_confidence, hmark, hecho, hhedge, hq,
      if_true, if_false, Bool.false_eq_true, ite_false, ite_true]
    rw [min_eq_right (by norm_num), max_eq_right (by norm_num)]

/-- C4 witness: both provider slots empty. -/
theorem claim_C4_witness :
    BotBrain.provider_fails (none : Option BotBrain.ProviderB)
    ∧ BotBrain.generate_response ⟨none, none⟩
        = (BotBrain.static_response, some "static")
    ∧ BotBrain.calculate_confidence BotBrain.static_response = 0.2 :=
  ⟨trivial,
   (claim_C4_amended ⟨none, none⟩ trivial trivial).1,
   (claim_C4_amended ⟨none, none⟩ trivial trivial).2⟩

/-! ### C5 — metadata after a primary-fails/fallback-succeeds turn -/

/-- C5 counterexample: the primary provider raises a timeout, the
fallback answers.  The returned metadata's `provider` entry is the string
`"unknown"` (not `"fallback"` — `think` reads
`context.get("provider_used", "unknown")` and nothing ever writes
`provider_used` into the context), and the metadata holds no `attempts`
key at all — against `metadata.providerUsed == "fallback"` with a
two-entry `attempts` list.  The fallback is used: `_generate_response`
does record `"fallback"` in its internal `provider_used` /
`_last_provider_used`. -/
theorem claim_C5_counterexample :
    (BotBrain.think BotBrain.oracleC5 "u1" "Como está o fluxo de caixa?" "teams").response
        = "Tudo certo! Como posso ajudar?"
    ∧ (BotBrain.generate_response BotBrain.oracleC5.providers).2 = some "fallback"
    ∧ assocGet (BotBrain.think BotBrain.oracleC5 "u1" "Como está o fluxo de caixa?" "teams").metadata
        "provider" = some (BotBrain.MVal.s "unknown")
    ∧ assocGet (BotBrain.think BotBrain.oracleC5 "u1" "Como está o fluxo de caixa?" "teams").metadata
        "attempts" = none :=
  ⟨rfl, rfl, rfl, rfl⟩

/-- C5 amended: when the primary provider fails and the fallback then
succeeds (and the learning-engine calls succeed so the success path is
reached), the fallback's text is returned and `_generate_response`'s
internal `provider_used` is `"fallback"`, but the returned metadata's
`provider` entry is the string `"unknown"` and the metadata contains no
`attempts` key — the attempts list of the spec exists only in the dead
`brain-oldgpt.py` variant. -/
theorem claim_C5_amended :
    ∀ (o : BotBrain.ThinkOracle) (uid msg ch : String)
      (p : BotBrain.UserProfileM) (pats : List BotBrain.PatternView)
      (e t : String),
      o.profile = .ok p →
      o.record_interaction = .ok () →
      o.patterns = .ok pats →
      o.record_response = .ok () →
      o.providers = ⟨some ⟨true, .error e⟩, some ⟨true, .ok t⟩⟩ →
      t ≠ "" →
      (BotBrain.think o uid msg ch).response = t
      ∧ (BotBrain.generate_response o.providers).2 = some "fallback"
      ∧ assocGet (BotBrain.think o uid msg ch).metadata "provider"
          = some (BotBrain.MVal.s "unknown")
      ∧ assocGet (BotBrain.think o uid msg ch).metadata "attempts" = none := by
  intro o uid msg ch p pats e t h1 h2 h3 h4 h5 ht
  obtain ⟨prof, ri, pats0, cx, prov, rr, el⟩ := o
  dsimp only at h1 h2 h3 h4 h5
  subst h1 h2 h3 h4
  have hgen : BotBrain.generate_response prov = (t, some "fallback") := by
    rw [h5]
    simp [BotBrain.generate_response, BotBrain.pyFalsyStr, ht]
  refine ⟨?_, ?_, ?_, rfl⟩
  · have hfst : (BotBrain.generate_response prov).1 = t := by rw [hgen]
    exact hfst
  · rw [hgen]
  · exact BotBrain.success_result_provider
      ⟨.ok p, .ok (), .ok pats, cx, prov, .ok (), el⟩ uid msg ch p pats

/-! ### C6 — the confidence heuristic -/

/-- C6 counterexample: on the response text `"dificuldades técnicas?"`
(an LLM answer is an arbitrary string, so one can carry a static/error
marker and a question mark) the code computes 0.2 − 0.1 = 0.1, while the
claimed heuristic forces static/error responses to 0.2 — the claim's
"forced to 0.2" is false as a description of the computation. -/
theorem claim_C6_counterexample :
    BotBrain.calculate_confidence "dificuldades técnicas?" = 0.1
    ∧ BotBrain.confidence_claimed "dificuldades técnicas?" = 0.2
    ∧ BotBrain.calculate_confidence "dificuldades técnicas?"
        ≠ BotBrain.confidence_claimed "dificuldades técnicas?" := by
  have hmark : (pySubstr "dificuldades técnicas" "dificuldades técnicas?"
      || pySubstr "temporariamente indisponíveis" "dificuldades técnicas?") = true := by
    decide
  have hsm : BotBrain.static_marked "dificuldades técnicas?" = true := by decide
  have hecho : pyContainsAny ["você mencionou", "anteriormente", "como disse", "conforme"]
      (pyLower "dificuldades técnicas?") = false := by decide
  have hhedge : (pySubstr "não sei" (pyLower "dificuldades técnicas?")
      || pySubstr "não tenho certeza" (pyLower "dificuldades técnicas?")) = false := by
    decide
  have hq : pySubstr "?" "dificuldades técnicas?" = true := by decide
  have h1 : BotBrain.calculate_confidence "dificuldades técnicas?" = 0.1 := by
    simp only [BotBrain.calculate_confidence, hmark, hecho, hhedge, hq,
      if_true, if_false, Bool.false_eq_true, ite_true, ite_false]
    norm_num [min_def, max_def]
  have h2 : BotBrain.confidence_claimed "dificuldades técnicas?" = 0.2 := by
    simp only [BotBrain.confidence_claimed, hsm, if_true]
  refine ⟨h1, h2, ?_⟩
  rw [h1, h2]
  norm_num

/-- C6 amended: the computation equals the heuristic with one change —
a static/error marker replaces the base-and-length step by 0.2, after
which the echo, hedging and question-mark adjustments still apply before
clamping.  The bounds part of the claim holds unchanged: the result
always lies between 0.1 and 0.99. -/
theorem claim_C6_amended :
    ∀ r : String,
      BotBrain.calculate_confidence r = BotBrain.confidence_amended r
      ∧ 0.1 ≤ BotBrain.calculate_confidence r
      ∧ BotBrain.calculate_confidence r ≤ 0.99 := by
  intro r
  refine ⟨?_, ?_, ?_⟩
  · simp only [BotBrain.calculate_confidence, BotBrain.confidence_amended,
      BotBrain.static_marked, BotBrain.echoes_context, BotBrain.hedging]
    split_ifs <;> norm_num [min_def, max_def]
  · exact le_max_left _ _
  · exact max_le (by norm_num) (min_le_left _ _)

/-! ### C9 — determinism of pattern detection -/

/-- C9 counterexample: with user, message and history fixed, two calls at
different wall-clock readings return different pattern sets.
`PatternDetector.detect_patterns` stamps each pattern with
`detected_at = datetime.now().isoformat()`, and
`LearningEngine._detect_patterns` emits a `morning_routine` pattern only
when `datetime.now().hour` is 9 or 10 — the output is not a function of
the inputs alone. -/
theorem claim_C9_counterexample :
    PatternDetector.detect_patterns "u" "obrigado" [] "2024-01-01T09:00:00"
      ≠ PatternDetector.detect_patterns "u" "obrigado" [] "2024-01-01T11:00:00"
    ∧ LearningEngine.detect_patterns "u" "bom dia" [] 9
      ≠ LearningEngine.detect_patterns "u" "bom dia" [] 11 := by
  constructor
  · intro h
    have h1 : (PatternDetector.detect_patterns "u" "obrigado" []
        "2024-01-01T09:00:00").head?.map (fun p => p.detectedAt)
        = some (some "2024-01-01T09:00:00") := rfl
    have h2 : (PatternDetector.detect_patterns "u" "obrigado" []
        "2024-01-01T11:00:00").head?.map (fun p => p.detectedAt)
        = some (some "2024-01-01T11:00:00") := rfl
    rw [h] at h1
    rw [h2] at h1
    simp at h1
  · intro h
    have h1 : (LearningEngine.detect_patterns "u" "bom dia" [] 9).length = 1 := rfl
    have h2 : (LearningEngine.detect_patterns "u" "bom dia" [] 11).length = 0 := rfl
    rw [h] at h1
    rw [h2] at h1
    cases h1

/-- C9 amended: pattern detection is deterministic given its inputs and
the clock reading, and the clock enters only through the stamp
(respectively the morning-routine rule): stripping `detected_at`, two
`PatternDetector.detect_patterns` calls on the same inputs agree whatever
the two clock readings; and dropping the clock-derived `morning_routine`
pattern, two `LearningEngine._detect_patterns` calls on the same inputs
agree whatever the two clock hours. -/
theorem claim_C9_amended :
    (∀ (u m : String) (h : List ConvData) (t1 t2 : String),
      (PatternDetector.detect_patterns u m h t1).map PatternDetector.stripStamp
        = (PatternDetector.detect_patterns u m h t2).map PatternDetector.stripStamp)
    ∧ (∀ (u m : String) (h : List ConvData) (h1 h2 : Nat),
      (LearningEngine.detect_patterns u m h h1).filter
          (fun p => p.patternType ≠ "morning_routine")
        = (LearningEngine.detect_patterns u m h h2).filter
          (fun p => p.patternType ≠ "morning_routine")) := by
  constructor
  · intro u m h t1 t2
    simp only [PatternDetector.detect_patterns, List.map_map]
    rfl
  · intro u m h h1 h2
    simp only [LearningEngine.detect_patterns, List.filter_append]
    have hmr : ∀ hr : Nat,
        (if 9 ≤ hr ∧ hr ≤ 10 then
            [({ patternType := "morning_routine", confidence := 0.6 } :
              LearningEngine.LEPattern)]
          else []).filter (fun p => p.patternType ≠ "morning_routine") = [] := by
      intro hr
      split_ifs <;> simp
    rw [hmr h1, hmr h2]

/-- C5 witness: concrete oracle with a failing primary and a succeeding
fallback, run through the amended theorem. -/
theorem claim_C5_witness :
    (BotBrain.think BotBrain.oracleC5w "u7" "olá" "teams").response
        = "Claro, posso ajudar."
    ∧ assocGet (BotBrain.think BotBrain.oracleC5w "u7" "olá" "teams").metadata
        "provider" = some (BotBrain.MVal.s "unknown")
    ∧ assocGet (BotBrain.think BotBrain.oracleC5w "u7" "olá" "teams").metadata
        "attempts" = none := by
  have h := claim_C5_amended BotBrain.oracleC5w "u7" "olá" "teams"
    { communication_style := "neutral", expertise_level := "intermediate",
      preferences := [], satisfaction_score := 0.5 }
    [] "ReadTimeout" "Claro, posso ajudar." rfl rfl rfl rfl rfl (by decide)
  exact ⟨h.1, h.2.2.1, h.2.2.2⟩

end BotCore
